import Mathlib

/-!
Verification development for the send2Kindle Telegram bot
(`send2kindle_bot/bot.py`, `mailer.py`, `config.py`).

The Python code is shallowly embedded: inbound Telegram messages become
structures, each fallible external call (Telegram API, SMTP, file system)
is resolved by an explicit environment of outcomes, and every operation
returns the list of externally observable actions it performed together
with flags recording whether the staged temporary file still exists and
whether an exception escaped the call.
-/

namespace Send2Kindle

/-- Observable outcome of one attachment build, mirroring
`EmailMessage.add_attachment(..., maintype=..., subtype=..., filename=...)`
in `mailer.send_file_via_email`. -/
structure EmailAttachment where
  maintype : String
  subtype : String
  filename : String
deriving DecidableEq, Repr

/-- The email message built by `mailer.send_file_via_email`. -/
structure EmailMessage where
  subject : String
  fromAddr : String
  toAddr : String
  body : String
  attachment : EmailAttachment
deriving DecidableEq, Repr

/-- The configuration record `config.Settings` (only the fields the bot
core reads; SMTP transport credentials are plumbing the core never
branches on). -/
structure Settings where
  allowed_user_ids : List Int
  smtp_from_email : String
  kindle_recipient_email : String
  email_subject : String
deriving DecidableEq, Repr

/-- `bot._is_authorized`: `bool(user_id and user_id in settings.allowed_user_ids)`.
`user_id` is `Optional[int]`; Python truthiness makes both `None` and `0`
short-circuit to a denial before the membership test. -/
def is_authorized (settings : Settings) (user_id : Option Int) : Bool :=
  match user_id with
  | none => false
  | some u => if u = 0 then false else settings.allowed_user_ids.contains u

/-- A Telegram `document` payload: the two fields `_handle_document` reads.
`none` stands for a field that is absent or not of the expected type. -/
structure Document where
  file_id : Option String
  file_name : Option String
deriving DecidableEq, Repr

/-- An inbound Telegram message, reduced to the fields the dispatcher
reads. `chat_id` is the result of `bot._get_chat_id` (`none` when the
nested `chat.id` is absent or not an `int`), and `user_id` likewise the
result of `bot._get_user_id`. -/
structure Message where
  chat_id : Option Int
  user_id : Option Int
  text : Option String
  document : Option Document
deriving DecidableEq, Repr

/-- One entry of a `getUpdates` batch: `update_id` (when present and an
`int`) and the optional `message` payload. -/
structure Update where
  update_id : Option Int
  message : Option Message
deriving DecidableEq, Repr

/-- The extension of a file name, as computed by `posixpath.splitext`
(which `mimetypes.guess_type` relies on for bare file names): the suffix
from the last dot, empty when there is no dot or when every character
before the last dot is itself a dot. -/
def extChars (cs : List Char) : List Char :=
  match ((List.range cs.length).filter (fun i => cs.getD i ' ' = '.')).getLast? with
  | none => []
  | some i => if (cs.take i).any (fun c => c ≠ '.') then cs.drop i else []

/-- Modelled from the Python standard library: the suffix table consulted
by `mimetypes.guess_type`, restricted to the document extensions this
system exercises (the full stdlib table is a superset; unlisted
extensions yield no guess, which is the `None` case of `guess_type`). -/
def types_map : List (String × String) :=
  [(".epub", "application/epub+zip"),
   (".pdf", "application/pdf"),
   (".txt", "text/plain"),
   (".bin", "application/octet-stream"),
   (".docx", "application/vnd.openxmlformats-officedocument.wordprocessingml.document"),
   (".mobi", "application/x-mobipocket-ebook")]

/-- Modelled from the Python standard library: `mimetypes.guess_type` on a
bare file name — look the lower-cased extension up in the suffix table. -/
def guess_type (name : String) : Option String :=
  let ext := String.mk ((extChars name.data).map Char.toLower)
  (types_map.find? (fun p => p.1 == ext)).map (·.2)

/-- Python's `str.startswith(prefix_string)`. -/
def startswith (s : String) (pattern : String) : Bool :=
  pattern.data.isPrefixOf s.data

/-- `str.split("/", maxsplit=1)` on the character list of a string that
contains the separator: the part before the first slash and everything
after it (further slashes stay in the second part, as `maxsplit=1`
demands). -/
def splitSlash1 (cs : List Char) : List Char × List Char :=
  match cs with
  | [] => ([], [])
  | c :: rest =>
    if c = '/' then ([], rest)
    else
      let p := splitSlash1 rest
      (c :: p.1, p.2)

/-- `mailer.send_file_via_email`, as the email message it constructs and
hands to SMTP. `maintype, subtype = (mime_type or
"application/octet-stream").split("/", maxsplit=1)`; the attachment
filename is the display name, verbatim. The attachment bytes are not
modelled (the staged file's content never influences control flow). -/
def send_file_via_email (settings : Settings) (display_name : String) : EmailMessage :=
  let mime_type := guess_type display_name
  let full := mime_type.getD "application/octet-stream"
  { subject := settings.email_subject
    fromAddr := settings.smtp_from_email
    toAddr := settings.kindle_recipient_email
    body := "Sent via Telegram Send2Kindle bot."
    attachment :=
      { maintype := String.mk (splitSlash1 full.data).1
        subtype := String.mk (splitSlash1 full.data).2
        filename := display_name } }

/-- The full content type carried by an attachment, re-joining the
maintype/subtype pair the mailer split. -/
def attachmentContentType (a : EmailAttachment) : String :=
  a.maintype ++ "/" ++ a.subtype

/-- Externally observable actions of the bot: Telegram sends, Telegram
capability invocations, the SMTP delivery, the cleanup warning log, and
the poller loop's cursor writes / sleeps / fetches. -/
inductive Action where
  | sendText (chat_id : Int) (text : String)
  | sendChatAction (chat_id : Int) (action : String)
  | getFile (file_id : String)
  | downloadFile (path : String)
  | deliverEmail (msg : EmailMessage)
  | logWarning
  | cursorSet (value : Option Int)
  | sleep (seconds : Nat)
  | fetchUpdates (cursor : Option Int)
deriving DecidableEq, Repr

/-- Outcomes of the external calls one message-processing pass can make.
`getFileResult = none` means `client.get_file` raised `TelegramAPIError`;
`some fp` means it returned a dict whose `file_path` entry is `fp`
(`none` there standing for a missing or non-string field). A `false`
boolean means the corresponding call raised. -/
structure RelayEnv where
  chatActionOk : Bool
  getFileResult : Option (Option String)
  downloadOk : Bool
  emailOk : Bool
  sendOk : Bool
  unlinkOk : Bool
deriving DecidableEq, Repr

/-- Result of one dispatcher or relay invocation: the actions performed,
whether the staged temporary file still exists afterwards, and whether an
exception escaped the call. -/
structure RelayResult where
  actions : List Action
  tempExists : Bool
  raised : Bool
deriving DecidableEq, Repr

def badIdNotice : String := "Could not read the file ID, please try again."

def relayOkNotice : String := "Your file is on its way to your Kindle inbox."

def relayFailNotice : String := "Something went wrong. Please try again later."

def unauthorizedNotice : String := "Sorry, you are not allowed to use this bot."

def unexpectedNotice : String := "Unexpected error handling your message."

def WELCOME_MESSAGE : String :=
  "Send me the document you want on your Kindle.\nI will forward most common formats via email to your Kindle inbox."

def HELP_MESSAGE : String :=
  "This bot forwards any document you send to your Kindle email address.\nUsage:\n1. Send /start to confirm I am online.\n2. Upload a supported document (PDF/EPUB/DOCX/etc.).\n3. Wait a few minutes for Amazon to deliver it to your Kindle."

/-- The `try:` block of `bot._handle_document`: chat action, `get_file`,
`file_path` check, download, email, confirmation notice. Returns the
actions performed and whether the block raised. A send that raises emits
no `sendText` action (the notice never reached the chat); capability
invocations (`getFile`, `downloadFile`) are recorded even when they
raise, since the call was made. -/
def relayTryBody (env : RelayEnv) (settings : Settings) (chat_id : Int)
    (fid : String) (file_name : String) : List Action × Bool :=
  let acts := [Action.sendChatAction chat_id "upload_document"]
  if env.chatActionOk then
    let acts := acts ++ [Action.getFile fid]
    match env.getFileResult with
    | none => (acts, true)
    | some none => (acts, true)
    | some (some fp) =>
      let acts := acts ++ [Action.downloadFile fp]
      if env.downloadOk then
        let acts := acts ++ [Action.deliverEmail (send_file_via_email settings file_name)]
        if env.emailOk then
          if env.sendOk then (acts ++ [Action.sendText chat_id relayOkNotice], false)
          else (acts, true)
        else (acts, true)
      else (acts, true)
  else (acts, true)

/-- `bot._handle_document`. An invalid `file_id` notifies and returns
before any temporary file is staged; otherwise a temporary file is
created, the try body runs, the `except` clause sends the generic failure
notice, and the `finally` clause unlinks the temporary file, logging a
warning (and swallowing the error) when the unlink itself fails. The
temporary file's path name is abstracted to its existence. -/
def handle_document (env : RelayEnv) (settings : Settings) (chat_id : Int)
    (document : Document) : RelayResult :=
  match document.file_id with
  | none =>
    if env.sendOk then
      { actions := [Action.sendText chat_id badIdNotice], tempExists := false, raised := false }
    else
      { actions := [], tempExists := false, raised := true }
  | some fid =>
    let file_name := match document.file_name with
      | some n => if n = "" then "document.bin" else n
      | none => "document.bin"
    let tryOut := relayTryBody env settings chat_id fid file_name
    let afterExcept : List Action × Bool :=
      if tryOut.2 then
        if env.sendOk then (tryOut.1 ++ [Action.sendText chat_id relayFailNotice], false)
        else (tryOut.1, true)
      else (tryOut.1, false)
    if env.unlinkOk then
      { actions := afterExcept.1, tempExists := false, raised := afterExcept.2 }
    else
      { actions := afterExcept.1 ++ [Action.logWarning], tempExists := true,
        raised := afterExcept.2 }

/-- `bot._process_message`: resolve the chat, gate on authorization, then
commands (`/start`, `/help`), then the document payload. A non-command
text falls through to the document check. -/
def process_message (env : RelayEnv) (settings : Settings) (message : Message) :
    RelayResult :=
  match message.chat_id with
  | none => { actions := [], tempExists := false, raised := false }
  | some chat_id =>
    if is_authorized settings message.user_id then
      let afterText : Option RelayResult :=
        match message.text with
        | some t =>
          if startswith t "/start" then
            if env.sendOk then
              some { actions := [Action.sendText chat_id WELCOME_MESSAGE],
                     tempExists := false, raised := false }
            else some { actions := [], tempExists := false, raised := true }
          else if startswith t "/help" then
            if env.sendOk then
              some { actions := [Action.sendText chat_id HELP_MESSAGE],
                     tempExists := false, raised := false }
            else some { actions := [], tempExists := false, raised := true }
          else none
        | none => none
      match afterText with
      | some r => r
      | none =>
        match message.document with
        | some d => handle_document env settings chat_id d
        | none => { actions := [], tempExists := false, raised := false }
    else
      if env.sendOk then
        { actions := [Action.sendText chat_id unauthorizedNotice],
          tempExists := false, raised := false }
      else
        { actions := [], tempExists := false, raised := true }

/-- The per-update cursor advance inside `run_bot`'s batch loop:
`if isinstance(update_id, int): next_offset = update_id + 1; offset =
next_offset if offset is None or next_offset > offset else offset`. -/
def stepOffset (offset : Option Int) (u : Update) : Option Int :=
  match u.update_id with
  | some uid =>
    let next_offset := uid + 1
    match offset with
    | none => some next_offset
    | some o => if next_offset > o then some next_offset else some o
  | none => offset

/-- State of `run_bot`'s loop: the cursor, the trace of actions so far,
and whether an uncaught exception has terminated the loop. -/
structure LoopState where
  offset : Option Int
  trace : List Action
  crashed : Bool
deriving DecidableEq, Repr

/-- The body of `run_bot`'s `for update in updates` loop for one update:
advance the cursor first, then (when a `message` dict is present)
dispatch it; an exception from the dispatcher is caught, and — when the
chat is resolvable — the generic error notice is sent, whose own failure
is uncaught and terminates the loop. -/
def processUpdate (env : RelayEnv) (settings : Settings) (st : LoopState)
    (u : Update) : LoopState :=
  if st.crashed then st
  else
    let offset' := stepOffset st.offset u
    let cursorTrace : List Action := match u.update_id with
      | some _ => [Action.cursorSet offset']
      | none => []
    match u.message with
    | none => { offset := offset', trace := st.trace ++ cursorTrace, crashed := false }
    | some m =>
      let r := process_message env settings m
      if r.raised then
        match m.chat_id with
        | some c =>
          if env.sendOk then
            { offset := offset'
              trace := st.trace ++ cursorTrace ++ r.actions ++
                [Action.sendText c unexpectedNotice]
              crashed := false }
          else
            { offset := offset', trace := st.trace ++ cursorTrace ++ r.actions,
              crashed := true }
        | none =>
          { offset := offset', trace := st.trace ++ cursorTrace ++ r.actions,
            crashed := false }
      else
        { offset := offset', trace := st.trace ++ cursorTrace ++ r.actions,
          crashed := false }

/-- Whether processing this update leaves `run_bot`'s loop with an
uncaught exception: the dispatcher raised and the error-notice send of
the failure boundary itself raised. -/
def updateCrashes (env : RelayEnv) (settings : Settings) (u : Update) : Bool :=
  match u.message with
  | none => false
  | some m =>
    if (process_message env settings m).raised then
      match m.chat_id with
      | some _ => !env.sendOk
      | none => false
    else false

/-- The actions the dispatch part of one loop-body iteration contributes
(everything after the cursor write): the dispatcher's own actions, plus
the failure boundary's error notice when the dispatcher raised and the
notice could be delivered. -/
def dispatchTrace (env : RelayEnv) (settings : Settings) (u : Update) : List Action :=
  match u.message with
  | none => []
  | some m =>
    let r := process_message env settings m
    r.actions ++
      (if r.raised then
        match m.chat_id with
        | some c => if env.sendOk then [Action.sendText c unexpectedNotice] else []
        | none => []
      else [])

/-- Outcome of one `client.get_updates` call: a `TelegramAPIError`, or a
batch of updates. -/
inductive Fetch where
  | failure
  | success (batch : List Update)
deriving DecidableEq, Repr

/-- `run_bot`'s `while True` loop, driven by a finite list of fetch
outcomes. A failed fetch logs, sleeps 5 seconds and retries with the same
cursor; a successful fetch folds `processUpdate` over the batch. A crash
(uncaught exception) stops the loop. -/
def runPoll (env : RelayEnv) (settings : Settings) :
    LoopState → List Fetch → LoopState
  | st, [] => st
  | st, f :: rest =>
    if st.crashed then st
    else
      match f with
      | Fetch.failure =>
        runPoll env settings
          { offset := st.offset,
            trace := st.trace ++ [Action.fetchUpdates st.offset, Action.sleep 5],
            crashed := false } rest
      | Fetch.success batch =>
        runPoll env settings
          (batch.foldl (processUpdate env settings)
            { offset := st.offset,
              trace := st.trace ++ [Action.fetchUpdates st.offset],
              crashed := false }) rest

/-- The spec's cursor formula, following its words: after a batch with
update identifiers `u1..un` the cursor is `max(previous_cursor,
max(ui) + 1)`, an unset previous cursor being treated as absent (so the
result is then `max(ui) + 1`); an empty batch leaves the cursor as is. -/
def cursorSpec (prev : Option Int) (ids : List Int) : Option Int :=
  match ids with
  | [] => prev
  | i :: rest =>
    let m := rest.foldl max i
    match prev with
    | none => some (m + 1)
    | some p => some (max p (m + 1))

/-- Is this action one of the two relay-outcome notices for this chat? -/
def isOutcomeNotice (chat_id : Int) : Action → Bool
  | Action.sendText c t => c == chat_id && (t == relayOkNotice || t == relayFailNotice)
  | _ => false

/-- Is this action a command reply (welcome or help notice)? -/
def isCommandReply : Action → Bool
  | Action.sendText _ t => t == WELCOME_MESSAGE || t == HELP_MESSAGE
  | _ => false

/-- Is this action something only the file relay performs? -/
def isRelayAction : Action → Bool
  | Action.sendChatAction _ _ => true
  | Action.getFile _ => true
  | Action.downloadFile _ => true
  | Action.deliverEmail _ => true
  | Action.logWarning => true
  | Action.sendText _ t => t == relayOkNotice || t == relayFailNotice || t == badIdNotice
  | _ => false

/-! ## Helper lemmas about the relay and the dispatcher -/

theorem handle_document_noraise_aux (env : RelayEnv) (settings : Settings) (chat_id : Int)
    (d : Document) (hsend : env.sendOk = true) :
    (handle_document env settings chat_id d).raised = false := by
  rcases env with ⟨ca, gf, dl, em, so, ul⟩
  cases so with
  | false => simp at hsend
  | true =>
    rcases hfid : d.file_id with _ | fid <;>
      rcases gf with _ | (_ | fp) <;>
        cases ca <;> cases dl <;> cases em <;> cases ul <;>
          simp [handle_document, relayTryBody, hfid]

theorem process_message_noraise_aux (env : RelayEnv) (settings : Settings) (m : Message)
    (hsend : env.sendOk = true) :
    (process_message env settings m).raised = false := by
  cases hcid : m.chat_id with
  | none => simp [process_message, hcid]
  | some c =>
    cases hauth : is_authorized settings m.user_id with
    | false => simp [process_message, hcid, hauth, hsend]
    | true =>
      cases ht : m.text with
      | none =>
        cases hd : m.document with
        | none => simp [process_message, hcid, hauth, ht, hd]
        | some d =>
          simp [process_message, hcid, hauth, ht, hd,
            handle_document_noraise_aux env settings c d hsend]
      | some t =>
        cases hs : startswith t "/start" with
        | true => simp [process_message, hcid, hauth, ht, hs, hsend]
        | false =>
          cases hh : startswith t "/help" with
          | true => simp [process_message, hcid, hauth, ht, hs, hh, hsend]
          | false =>
            cases hd : m.document with
            | none => simp [process_message, hcid, hauth, ht, hs, hh, hd]
            | some d =>
              simp [process_message, hcid, hauth, ht, hs, hh, hd,
                handle_document_noraise_aux env settings c d hsend]

/-! ## Helper lemmas about the poller loop -/

theorem stepOffset_mono (off : Option Int) (u : Update) (p : Int) (hp : off = some p) :
    ∃ q, stepOffset off u = some q ∧ p ≤ q := by
  subst hp
  cases hu : u.update_id with
  | none => exact ⟨p, by simp [stepOffset, hu], le_refl p⟩
  | some uid =>
    by_cases h : uid + 1 > p
    · exact ⟨uid + 1, by simp [stepOffset, hu, h], by omega⟩
    · exact ⟨p, by simp [stepOffset, hu, h], le_refl p⟩

theorem processUpdate_offset (env : RelayEnv) (settings : Settings) (st : LoopState)
    (u : Update) :
    (processUpdate env settings st u).offset
      = if st.crashed then st.offset else stepOffset st.offset u := by
  rcases st with ⟨o, t, c⟩
  cases c with
  | true => simp [processUpdate]
  | false =>
    cases hm : u.message with
    | none => simp [processUpdate, hm]
    | some m =>
      cases hr : (process_message env settings m).raised <;>
        cases hcid : m.chat_id <;>
          cases hso : env.sendOk <;>
            simp [processUpdate, hm, hr, hcid, hso]

theorem processUpdate_crashed (env : RelayEnv) (settings : Settings) (st : LoopState)
    (u : Update) :
    (processUpdate env settings st u).crashed
      = (st.crashed || updateCrashes env settings u) := by
  rcases st with ⟨o, t, c⟩
  cases c with
  | true => simp [processUpdate]
  | false =>
    cases hm : u.message with
    | none => simp [processUpdate, updateCrashes, hm]
    | some m =>
      cases hr : (process_message env settings m).raised <;>
        cases hcid : m.chat_id <;>
          cases hso : env.sendOk <;>
            simp [processUpdate, updateCrashes, hm, hr, hcid, hso]

theorem processUpdate_trace (env : RelayEnv) (settings : Settings) (st : LoopState)
    (u : Update) (hcr : st.crashed = false) :
    (processUpdate env settings st u).trace
      = st.trace ++ (match u.update_id with
          | some _ => [Action.cursorSet (stepOffset st.offset u)]
          | none => []) ++ dispatchTrace env settings u := by
  rcases st with ⟨o, t, c⟩
  cases c with
  | true => simp at hcr
  | false =>
    cases hm : u.message with
    | none => simp [processUpdate, dispatchTrace, hm]
    | some m =>
      cases hr : (process_message env settings m).raised <;>
        cases hcid : m.chat_id <;>
          cases hso : env.sendOk <;>
            simp [processUpdate, dispatchTrace, hm, hr, hcid, hso]

theorem foldl_processUpdate_offset (env : RelayEnv) (settings : Settings)
    (hsend : env.sendOk = true) :
    ∀ (batch : List Update) (st : LoopState), st.crashed = false →
      (batch.foldl (processUpdate env settings) st).offset
        = batch.foldl stepOffset st.offset := by
  intro batch
  induction batch with
  | nil => intro st _; rfl
  | cons u bt ih =>
    intro st hc
    rw [List.foldl_cons, List.foldl_cons, ih _ ?_, processUpdate_offset, if_neg ?_]
    · simp [hc]
    · rw [processUpdate_crashed, hc, Bool.false_or]
      cases hm : u.message with
      | none => simp [updateCrashes, hm]
      | some m =>
        simp [updateCrashes, hm, process_message_noraise_aux env settings m hsend]

theorem foldl_processUpdate_offset_mono (env : RelayEnv) (settings : Settings) :
    ∀ (batch : List Update) (st : LoopState) (p : Int), st.offset = some p →
      ∃ q, (batch.foldl (processUpdate env settings) st).offset = some q ∧ p ≤ q := by
  intro batch
  induction batch with
  | nil => intro st p hp; exact ⟨p, hp, le_refl p⟩
  | cons u bt ih =>
    intro st p hp
    rw [List.foldl_cons]
    by_cases hc : st.crashed = true
    · exact ih _ p (by rw [processUpdate_offset, if_pos hc]; exact hp)
    · obtain ⟨q, hq, hpq⟩ := stepOffset_mono st.offset u p hp
      obtain ⟨r, hr, hqr⟩ := ih (processUpdate env settings st u) q
        (by rw [processUpdate_offset, if_neg hc]; exact hq)
      exact ⟨r, hr, le_trans hpq hqr⟩

theorem runPoll_offset_mono (env : RelayEnv) (settings : Settings) :
    ∀ (fetches : List Fetch) (st : LoopState) (p : Int), st.offset = some p →
      ∃ q, (runPoll env settings st fetches).offset = some q ∧ p ≤ q := by
  intro fetches
  induction fetches with
  | nil => intro st p hp; exact ⟨p, hp, le_refl p⟩
  | cons f rest ih =>
    intro st p hp
    by_cases hc : st.crashed = true
    · have hstop : runPoll env settings st (f :: rest) = st := by
        cases f <;> simp [runPoll, hc]
      rw [hstop]; exact ⟨p, hp, le_refl p⟩
    · have hc' : st.crashed = false := by simpa using hc
      cases f with
      | failure =>
        have hun : runPoll env settings st (Fetch.failure :: rest)
            = runPoll env settings
              { offset := st.offset,
                trace := st.trace ++ [Action.fetchUpdates st.offset, Action.sleep 5],
                crashed := false } rest := by
          simp [runPoll, hc']
        rw [hun]
        exact ih _ p hp
      | success batch =>
        have hun : runPoll env settings st (Fetch.success batch :: rest)
            = runPoll env settings
              (batch.foldl (processUpdate env settings)
                { offset := st.offset,
                  trace := st.trace ++ [Action.fetchUpdates st.offset],
                  crashed := false }) rest := by
          simp [runPoll, hc']
        rw [hun]
        obtain ⟨q, hq, hpq⟩ := foldl_processUpdate_offset_mono env settings batch
          { offset := st.offset, trace := st.trace ++ [Action.fetchUpdates st.offset],
            crashed := false } p hp
        obtain ⟨r, hr, hqr⟩ := ih _ q hq
        exact ⟨r, hr, le_trans hpq hqr⟩

theorem foldl_max_succ (rest : List Int) :
    ∀ (i p : Int), rest.foldl (fun a j => max a (j + 1)) (max p (i + 1))
      = max p (rest.foldl max i + 1) := by
  induction rest with
  | nil => intro i p; rfl
  | cons j rt ih =>
    intro i p
    rw [List.foldl_cons, List.foldl_cons]
    have h1 : max (max p (i + 1)) (j + 1) = max p (max i j + 1) := by
      rw [max_assoc, max_add_add_right]
    rw [h1, ih]

theorem foldl_max_succ_start (rest : List Int) :
    ∀ (i : Int), rest.foldl (fun a j => max a (j + 1)) (i + 1)
      = rest.foldl max i + 1 := by
  induction rest with
  | nil => intro i; rfl
  | cons j rt ih =>
    intro i
    rw [List.foldl_cons, List.foldl_cons, max_add_add_right, ih]

theorem foldl_stepOffset_some (batch : List Update) :
    ∀ (ids : List Int) (p : Int),
      batch.map (fun u => u.update_id) = ids.map some →
      batch.foldl stepOffset (some p)
        = some (ids.foldl (fun a i => max a (i + 1)) p) := by
  induction batch with
  | nil =>
    intro ids p h
    cases ids with
    | nil => rfl
    | cons i it => simp at h
  | cons u bt ih =>
    intro ids p h
    cases ids with
    | nil => simp at h
    | cons i it =>
      simp only [List.map_cons, List.cons.injEq] at h
      obtain ⟨h1, h2⟩ := h
      rw [List.foldl_cons, List.foldl_cons]
      have hstep : stepOffset (some p) u = some (max p (i + 1)) := by
        simp only [stepOffset, h1]
        split_ifs with hgt
        · rw [max_eq_right (by omega)]
        · rw [max_eq_left (by omega)]
      rw [hstep]
      exact ih it (max p (i + 1)) h2

theorem foldl_stepOffset_cursorSpec (batch : List Update) (ids : List Int)
    (off : Option Int) (h : batch.map (fun u => u.update_id) = ids.map some) :
    batch.foldl stepOffset off = cursorSpec off ids := by
  cases ids with
  | nil =>
    have hb : batch = [] := by
      cases batch with
      | nil => rfl
      | cons u bt => simp at h
    subst hb; rfl
  | cons i it =>
    cases batch with
    | nil => simp at h
    | cons u bt =>
      simp only [List.map_cons, List.cons.injEq] at h
      obtain ⟨h1, h2⟩ := h
      cases off with
      | some p =>
        rw [foldl_stepOffset_some (u :: bt) (i :: it) p
          (by simp only [List.map_cons, h1, h2])]
        simp only [List.foldl_cons]
        rw [foldl_max_succ it i p]
        rfl
      | none =>
        rw [List.foldl_cons]
        have hstep : stepOffset none u = some (i + 1) := by
          simp [stepOffset, h1]
        rw [hstep, foldl_stepOffset_some bt it (i + 1) h2, foldl_max_succ_start it i]
        rfl

theorem foldl_processUpdate_congr (env : RelayEnv) (settings : Settings)
    (batch : List Update) :
    ∀ (st st' : LoopState), st.offset = st'.offset → st.crashed = st'.crashed →
      (batch.foldl (processUpdate env settings) st).offset
        = (batch.foldl (processUpdate env settings) st').offset := by
  induction batch with
  | nil => intro st st' h1 _; exact h1
  | cons u bt ih =>
    intro st st' h1 h2
    rw [List.foldl_cons, List.foldl_cons]
    apply ih
    · rw [processUpdate_offset, processUpdate_offset, h1, h2]
    · rw [processUpdate_crashed, processUpdate_crashed, h2]

/-! ## Claim theorems for the poller loop -/

/-- C1. Cursor monotonicity: starting from a live loop state, processing
one successfully fetched batch whose events all carry integer update
identifiers `ids` leaves the cursor at `max(previous_cursor, max(ids)+1)`
— `cursorSpec`, the spec's formula, with an unset cursor treated as
absent — and across any sequence of loop iterations a set cursor is never
decreased. -/
theorem cursor_monotonic_batch (env : RelayEnv) (settings : Settings) (st : LoopState)
    (batch : List Update) (ids : List Int)
    (hsend : env.sendOk = true) (hcr : st.crashed = false)
    (hids : batch.map (fun u => u.update_id) = ids.map some) :
    (runPoll env settings st [Fetch.success batch]).offset = cursorSpec st.offset ids
    ∧ ∀ (fetches : List Fetch) (p : Int), st.offset = some p →
        ∃ q, (runPoll env settings st fetches).offset = some q ∧ p ≤ q := by
  constructor
  · have hrun : runPoll env settings st [Fetch.success batch]
        = batch.foldl (processUpdate env settings)
            { offset := st.offset, trace := st.trace ++ [Action.fetchUpdates st.offset],
              crashed := false } := by
      simp [runPoll, hcr]
    rw [hrun, foldl_processUpdate_offset env settings hsend _ _ rfl]
    exact foldl_stepOffset_cursorSpec batch ids st.offset hids
  · intro fetches p hp
    exact runPoll_offset_mono env settings fetches st p hp

theorem cursor_monotonic_batch_witness :
    cursorSpec (some 2) [3, 1] = some 4
    ∧ (runPoll ⟨true, none, true, true, true, true⟩ ⟨[5], "f@x", "k@x", "convert"⟩
        ⟨some 2, [], false⟩
        [Fetch.success [⟨some 3, none⟩, ⟨some 1, none⟩]]).offset
      = cursorSpec (some 2) [3, 1] :=
  ⟨by decide,
   (cursor_monotonic_batch ⟨true, none, true, true, true, true⟩
      ⟨[5], "f@x", "k@x", "convert"⟩ ⟨some 2, [], false⟩
      [⟨some 3, none⟩, ⟨some 1, none⟩] [3, 1] rfl rfl rfl).1⟩

/-- C2. For every event carrying an integer update identifier, the loop
body advances the cursor (to `stepOffset` of it) before any dispatch
action: the cursor write is the first action the event contributes, and
the resulting cursor is the same whatever environment (hence whatever
dispatch outcome) the dispatcher runs under. -/
theorem cursor_advance_precedes_dispatch (env env' : RelayEnv)
    (settings settings' : Settings) (st : LoopState) (u : Update) (i : Int)
    (hcr : st.crashed = false) (hid : u.update_id = some i) :
    (processUpdate env settings st u).offset = stepOffset st.offset u
    ∧ (processUpdate env settings st u).offset
        = (processUpdate env' settings' st u).offset
    ∧ ∃ tail, (processUpdate env settings st u).trace
        = st.trace ++ Action.cursorSet (stepOffset st.offset u) :: tail := by
  refine ⟨?_, ?_, ?_⟩
  · rw [processUpdate_offset, if_neg (by simp [hcr])]
  · rw [processUpdate_offset, processUpdate_offset]
  · refine ⟨dispatchTrace env settings u, ?_⟩
    rw [processUpdate_trace env settings st u hcr]
    simp [hid]

theorem cursor_advance_precedes_dispatch_witness :
    (processUpdate ⟨true, none, true, true, true, true⟩ ⟨[5], "f@x", "k@x", "convert"⟩
        ⟨some 2, [], false⟩ ⟨some 7, none⟩).offset
      = stepOffset (some 2) ⟨some 7, none⟩
    ∧ stepOffset (some 2) ⟨some 7, none⟩ = some 8 :=
  ⟨(cursor_advance_precedes_dispatch ⟨true, none, true, true, true, true⟩
      ⟨false, none, false, false, false, false⟩ ⟨[5], "f@x", "k@x", "convert"⟩
      ⟨[], "", "", ""⟩ ⟨some 2, [], false⟩ ⟨some 7, none⟩ 7 rfl rfl).1,
   by decide⟩

/-- C7. A failed batch fetch makes the loop sleep 5 seconds and retry
with the very same cursor, and the loop keeps running: two consecutive
fetch failures leave the cursor unchanged, and following them with a
successful batch yields exactly the cursor the successful batch alone
would have produced. -/
theorem fetch_failure_retries_same_cursor (env : RelayEnv) (settings : Settings)
    (st : LoopState) (rest : List Fetch) (batch : List Update)
    (hcr : st.crashed = false) :
    runPoll env settings st (Fetch.failure :: rest)
      = runPoll env settings
          { offset := st.offset,
            trace := st.trace ++ [Action.fetchUpdates st.offset, Action.sleep 5],
            crashed := false } rest
    ∧ (runPoll env settings st [Fetch.failure, Fetch.failure]).offset = st.offset
    ∧ (runPoll env settings st [Fetch.failure, Fetch.failure, Fetch.success batch]).offset
        = (runPoll env settings st [Fetch.success batch]).offset := by
  refine ⟨by simp [runPoll, hcr], by simp [runPoll, hcr], ?_⟩
  have h1 : (runPoll env settings st [Fetch.failure, Fetch.failure, Fetch.success batch])
      = batch.foldl (processUpdate env settings)
        { offset := st.offset,
          trace := st.trace ++ [Action.fetchUpdates st.offset, Action.sleep 5] ++
            [Action.fetchUpdates st.offset, Action.sleep 5] ++
            [Action.fetchUpdates st.offset],
          crashed := false } := by
    simp [runPoll, hcr]
  have h2 : (runPoll env settings st [Fetch.success batch])
      = batch.foldl (processUpdate env settings)
        { offset := st.offset,
          trace := st.trace ++ [Action.fetchUpdates st.offset],
          crashed := false } := by
    simp [runPoll, hcr]
  rw [h1, h2]
  exact foldl_processUpdate_congr env settings batch _ _ rfl rfl

theorem fetch_failure_retries_same_cursor_witness :
    (runPoll ⟨true, none, true, true, true, true⟩ ⟨[5], "f@x", "k@x", "convert"⟩
        ⟨some 2, [], false⟩ [Fetch.failure, Fetch.failure]).offset = some 2
    ∧ (runPoll ⟨true, none, true, true, true, true⟩ ⟨[5], "f@x", "k@x", "convert"⟩
        ⟨some 2, [], false⟩
        [Fetch.failure, Fetch.failure, Fetch.success [⟨some 3, none⟩]]).offset
      = (runPoll ⟨true, none, true, true, true, true⟩ ⟨[5], "f@x", "k@x", "convert"⟩
          ⟨some 2, [], false⟩ [Fetch.success [⟨some 3, none⟩]]).offset :=
  ⟨(fetch_failure_retries_same_cursor ⟨true, none, true, true, true, true⟩
      ⟨[5], "f@x", "k@x", "convert"⟩ ⟨some 2, [], false⟩ [] [⟨some 3, none⟩] rfl).2.1,
   (fetch_failure_retries_same_cursor ⟨true, none, true, true, true, true⟩
      ⟨[5], "f@x", "k@x", "convert"⟩ ⟨some 2, [], false⟩ [] [⟨some 3, none⟩] rfl).2.2⟩

/-! ## Claim theorems for the relay, the dispatcher and the mailer -/

theorem handle_document_no_cmdreply (env : RelayEnv) (settings : Settings)
    (chat_id : Int) (d : Document) :
    (handle_document env settings chat_id d).actions.any isCommandReply = false := by
  rcases env with ⟨ca, gf, dl, em, so, ul⟩
  rcases hfid : d.file_id with _ | fid <;>
    rcases gf with _ | (_ | fp) <;>
      cases ca <;> cases dl <;> cases em <;> cases so <;> cases ul <;>
        simp [handle_document, relayTryBody, hfid, isCommandReply,
          badIdNotice, relayOkNotice, relayFailNotice, WELCOME_MESSAGE, HELP_MESSAGE]

/-- C3. Cleanup guarantee: on every relay outcome the staged temporary
file is gone after `_handle_document` returns whenever the deletion
operation itself succeeds; whether an exception escapes the relay does
not depend on the deletion outcome (a deletion failure never raises);
and when the deletion fails on a staged file, the warning is logged. -/
theorem relay_cleanup (env : RelayEnv) (settings : Settings) (chat_id : Int)
    (d : Document) :
    (env.unlinkOk = true → (handle_document env settings chat_id d).tempExists = false)
    ∧ (handle_document env settings chat_id d).raised
        = (handle_document ⟨env.chatActionOk, env.getFileResult, env.downloadOk,
            env.emailOk, env.sendOk, true⟩ settings chat_id d).raised
    ∧ (∀ fid, d.file_id = some fid → env.unlinkOk = false →
        Action.logWarning ∈ (handle_document env settings chat_id d).actions) := by
  rcases env with ⟨ca, gf, dl, em, so, ul⟩
  refine ⟨?_, ?_, ?_⟩
  · intro hul
    cases ul with
    | false => simp at hul
    | true =>
      rcases hfid : d.file_id with _ | fid <;> cases so <;>
        simp [handle_document, hfid]
  · cases ul <;> rcases hfid : d.file_id with _ | fid <;> cases so <;>
      rcases gf with _ | (_ | fp) <;> cases ca <;> cases dl <;> cases em <;>
        simp [handle_document, relayTryBody, hfid]
  · intro fid hfid hul
    cases ul with
    | true => simp at hul
    | false => cases so <;> simp [handle_document, hfid]

theorem relay_cleanup_witness :
    Action.logWarning ∈ (handle_document ⟨true, some (some "p/q"), true, true, true, false⟩
        ⟨[5], "f@x", "k@x", "convert"⟩ 7 ⟨some "fid", some "book.epub"⟩).actions :=
  (relay_cleanup ⟨true, some (some "p/q"), true, true, true, false⟩
      ⟨[5], "f@x", "k@x", "convert"⟩ 7 ⟨some "fid", some "book.epub"⟩).2.2 "fid" rfl rfl

/-- C4. At-most-one notice per relay attempt: for a valid file handle,
when the chat accepts messages, exactly one of the confirmation and the
generic failure notice reaches the chat — whatever the chat-action,
metadata, download, email and unlink steps do — and no exception escapes
the relay. -/
theorem relay_single_notice (env : RelayEnv) (settings : Settings) (chat_id : Int)
    (d : Document) (fid : String) (hfid : d.file_id = some fid)
    (hsend : env.sendOk = true) :
    ((handle_document env settings chat_id d).actions.countP (isOutcomeNotice chat_id)) = 1
    ∧ (handle_document env settings chat_id d).raised = false := by
  refine ⟨?_, handle_document_noraise_aux env settings chat_id d hsend⟩
  rcases env with ⟨ca, gf, dl, em, so, ul⟩
  cases so with
  | false => simp at hsend
  | true =>
    rcases gf with _ | (_ | fp) <;>
      cases ca <;> cases dl <;> cases em <;> cases ul <;>
        simp [handle_document, relayTryBody, hfid, isOutcomeNotice,
          relayOkNotice, relayFailNotice]

theorem relay_single_notice_witness :
    ((handle_document ⟨true, none, true, true, true, true⟩ ⟨[5], "f@x", "k@x", "convert"⟩
        7 ⟨some "fid", some "book.epub"⟩).actions.countP (isOutcomeNotice 7)) = 1 :=
  (relay_single_notice ⟨true, none, true, true, true, true⟩ ⟨[5], "f@x", "k@x", "convert"⟩
      7 ⟨some "fid", some "book.epub"⟩ "fid" rfl rfl).1

/-- C5. Authorization isolation: when the originating identity is absent
or not authorized, the dispatcher performs either nothing at all (no
resolvable chat, or the denial send itself raised) or exactly the single
fixed denial notice — in particular it never sends a command reply and
never invokes any relay capability; and an absent identity is always
denied. -/
theorem unauthorized_isolation (env : RelayEnv) (settings : Settings) (m : Message)
    (hauth : is_authorized settings m.user_id = false) :
    ((process_message env settings m).actions = []
      ∨ ∃ c, m.chat_id = some c ∧ (process_message env settings m).actions
          = [Action.sendText c unauthorizedNotice])
    ∧ ∀ s2 : Settings, is_authorized s2 none = false := by
  refine ⟨?_, fun s2 => rfl⟩
  cases hcid : m.chat_id with
  | none => exact Or.inl (by simp [process_message, hcid])
  | some c =>
    cases hso : env.sendOk with
    | false => exact Or.inl (by simp [process_message, hcid, hauth, hso])
    | true => exact Or.inr ⟨c, rfl, by simp [process_message, hcid, hauth, hso]⟩

theorem unauthorized_isolation_witness :
    (process_message ⟨true, none, true, true, true, true⟩ ⟨[5], "f@x", "k@x", "convert"⟩
        ⟨some 7, some 9, none, some ⟨some "fid", some "book.epub"⟩⟩).actions = []
    ∨ ∃ c, (⟨some 7, some 9, none, some ⟨some "fid", some "book.epub"⟩⟩ : Message).chat_id
          = some c
        ∧ (process_message ⟨true, none, true, true, true, true⟩ ⟨[5], "f@x", "k@x", "convert"⟩
            ⟨some 7, some 9, none, some ⟨some "fid", some "book.epub"⟩⟩).actions
          = [Action.sendText c unauthorizedNotice] :=
  (unauthorized_isolation ⟨true, none, true, true, true, true⟩ ⟨[5], "f@x", "k@x", "convert"⟩
      ⟨some 7, some 9, none, some ⟨some "fid", some "book.epub"⟩⟩ rfl).1

/-- C10. The identity value 0 is always denied, even when 0 is listed in
the allowed set, because the Python truthiness test `user_id and user_id
in settings.allowed_user_ids` short-circuits on 0. -/
theorem zero_identity_denied (settings : Settings)
    (_h : (0 : Int) ∈ settings.allowed_user_ids) :
    is_authorized settings (some 0) = false := rfl

theorem zero_identity_denied_witness :
    (0 : Int) ∈ (⟨[0], "f@x", "k@x", "convert"⟩ : Settings).allowed_user_ids
    ∧ is_authorized ⟨[0], "f@x", "k@x", "convert"⟩ (some 0) = false :=
  ⟨by decide, zero_identity_denied ⟨[0], "f@x", "k@x", "convert"⟩ (by decide)⟩

/-- C8. Command/file exclusivity: no event makes the dispatcher perform
both a command reply and a relay action; and an authorized event whose
text is neither `/start`- nor `/help`-prefixed is processed exactly as if
it carried no text at all (the text causes no action), including when a
document is also attached. -/
theorem noncommand_text_ignored (env : RelayEnv) (settings : Settings) (m : Message) :
    (¬ ((process_message env settings m).actions.any isCommandReply = true
        ∧ (process_message env settings m).actions.any isRelayAction = true))
    ∧ (∀ t, m.text = some t → startswith t "/start" = false →
        startswith t "/help" = false →
        process_message env settings m
          = process_message env settings ⟨m.chat_id, m.user_id, none, m.document⟩) := by
  constructor
  · rintro ⟨h1, h2⟩
    cases hcid : m.chat_id with
    | none => simp [process_message, hcid] at h1
    | some c =>
      cases hauth : is_authorized settings m.user_id with
      | false =>
        cases hso : env.sendOk <;>
          simp [process_message, hcid, hauth, hso, isRelayAction,
            unauthorizedNotice, relayOkNotice, relayFailNotice, badIdNotice] at h2
      | true =>
        cases ht : m.text with
        | some t =>
          cases hs : startswith t "/start" with
          | true =>
            cases hso : env.sendOk <;>
              simp [process_message, hcid, hauth, ht, hs, hso, isRelayAction,
                WELCOME_MESSAGE, relayOkNotice, relayFailNotice, badIdNotice] at h2
          | false =>
            cases hh : startswith t "/help" with
            | true =>
              cases hso : env.sendOk <;>
                simp [process_message, hcid, hauth, ht, hs, hh, hso, isRelayAction,
                  HELP_MESSAGE, relayOkNotice, relayFailNotice, badIdNotice] at h2
            | false =>
              cases hd : m.document with
              | none => simp [process_message, hcid, hauth, ht, hs, hh, hd] at h1
              | some d =>
                rw [show (process_message env settings m).actions
                    = (handle_document env settings c d).actions from by
                  simp [process_message, hcid, hauth, ht, hs, hh, hd]] at h1
                rw [handle_document_no_cmdreply env settings c d] at h1
                exact Bool.false_ne_true h1
        | none =>
          cases hd : m.document with
          | none => simp [process_message, hcid, hauth, ht, hd] at h1
          | some d =>
            rw [show (process_message env settings m).actions
                = (handle_document env settings c d).actions from by
              simp [process_message, hcid, hauth, ht, hd]] at h1
            rw [handle_document_no_cmdreply env settings c d] at h1
            exact Bool.false_ne_true h1
  · intro t ht hs hh
    cases hcid : m.chat_id with
    | none => simp [process_message, hcid]
    | some c =>
      cases hauth : is_authorized settings m.user_id with
      | false => simp [process_message, hcid, hauth]
      | true =>
        cases hd : m.document with
        | none => simp [process_message, hcid, hauth, ht, hs, hh, hd]
        | some d => simp [process_message, hcid, hauth, ht, hs, hh, hd]

theorem noncommand_text_ignored_witness :
    process_message ⟨true, some (some "p/q"), true, true, true, true⟩
        ⟨[9], "f@x", "k@x", "convert"⟩
        ⟨some 7, some 9, some "hello", some ⟨some "fid", some "book.epub"⟩⟩
      = process_message ⟨true, some (some "p/q"), true, true, true, true⟩
        ⟨[9], "f@x", "k@x", "convert"⟩
        ⟨some 7, some 9, none, some ⟨some "fid", some "book.epub"⟩⟩ :=
  (noncommand_text_ignored ⟨true, some (some "p/q"), true, true, true, true⟩
      ⟨[9], "f@x", "k@x", "convert"⟩
      ⟨some 7, some 9, some "hello", some ⟨some "fid", some "book.epub"⟩⟩).2
    "hello" rfl (by decide) (by decide)

/-- C6. Delivery contract of the mailer: whenever the relay reaches the
delivery step, the Delivery Port receives exactly the email the mailer
builds for the display name; that email's attachment filename is the
display name verbatim, its content type is the one inferred from the
display name's extension with `application/octet-stream` as the unknown
fallback, and a file named `book.epub` yields
`application/epub+zip`. -/
theorem mailer_delivery_contract (env : RelayEnv) (settings : Settings) (chat_id : Int)
    (d : Document) (name fid fp : String)
    (hfid : d.file_id = some fid) (hname : d.file_name = some name) (hne : ¬ name = "")
    (hca : env.chatActionOk = true) (hgf : env.getFileResult = some (some fp))
    (hdl : env.downloadOk = true) :
    Action.deliverEmail (send_file_via_email settings name)
        ∈ (handle_document env settings chat_id d).actions
    ∧ (send_file_via_email settings name).attachment.filename = name
    ∧ attachmentContentType (send_file_via_email settings name).attachment
        = (guess_type name).getD "application/octet-stream"
    ∧ guess_type "book.epub" = some "application/epub+zip" := by
  refine ⟨?_, rfl, ?_, by decide⟩
  · rcases env with ⟨ca, gf, dl, em, so, ul⟩
    cases ca with
    | false => simp at hca
    | true =>
      cases dl with
      | false => simp at hdl
      | true =>
        rcases gf with _ | (_ | fp2)
        · simp at hgf
        · simp at hgf
        · cases em <;> cases so <;> cases ul <;>
            simp [handle_document, relayTryBody, hfid, hname, hne]
  · cases hg : guess_type name with
    | none =>
      simp only [send_file_via_email, attachmentContentType, hg, Option.getD_none]
      decide
    | some t =>
      obtain ⟨pair, hfind, hsnd⟩ := Option.map_eq_some'.mp hg
      have hmem : pair ∈ types_map := List.mem_of_find?_eq_some hfind
      simp only [send_file_via_email, attachmentContentType, hg, Option.getD_some]
      rw [← hsnd]
      simp only [types_map, List.mem_cons, List.mem_singleton, List.not_mem_nil,
        or_false] at hmem
      rcases hmem with h | h | h | h | h | h <;> subst h <;> decide

theorem mailer_delivery_contract_witness :
    Action.deliverEmail (send_file_via_email ⟨[9], "f@x", "k@x", "convert"⟩ "book.epub")
        ∈ (handle_document ⟨true, some (some "p/q"), true, true, true, true⟩
            ⟨[9], "f@x", "k@x", "convert"⟩ 7 ⟨some "fid", some "book.epub"⟩).actions
    ∧ attachmentContentType (send_file_via_email ⟨[9], "f@x", "k@x", "convert"⟩
          "book.epub").attachment
        = "application/epub+zip" :=
  ⟨(mailer_delivery_contract ⟨true, some (some "p/q"), true, true, true, true⟩
      ⟨[9], "f@x", "k@x", "convert"⟩ 7 ⟨some "fid", some "book.epub"⟩
      "book.epub" "fid" "p/q" rfl rfl (by decide) rfl rfl rfl).1,
   by decide⟩

/-- C9. Default display name: a document whose `file_name` is missing or
empty is relayed under the name `document.bin`, and the delivered
attachment is named exactly `document.bin` with content type
`application/octet-stream`. -/
theorem default_display_name (env : RelayEnv) (settings : Settings) (chat_id : Int)
    (d : Document) (fid fp : String)
    (hfid : d.file_id = some fid) (hname : d.file_name = none ∨ d.file_name = some "")
    (hca : env.chatActionOk = true) (hgf : env.getFileResult = some (some fp))
    (hdl : env.downloadOk = true) :
    Action.deliverEmail (send_file_via_email settings "document.bin")
        ∈ (handle_document env settings chat_id d).actions
    ∧ (send_file_via_email settings "document.bin").attachment.filename = "document.bin"
    ∧ attachmentContentType (send_file_via_email settings "document.bin").attachment
        = "application/octet-stream" := by
  refine ⟨?_, rfl, rfl⟩
  rcases env with ⟨ca, gf, dl, em, so, ul⟩
  cases ca with
  | false => simp at hca
  | true =>
    cases dl with
    | false => simp at hdl
    | true =>
      rcases gf with _ | (_ | fp2)
      · simp at hgf
      · simp at hgf
      · rcases hname with h | h <;> cases em <;> cases so <;> cases ul <;>
          simp [handle_document, relayTryBody, hfid, h]

theorem default_display_name_witness :
    Action.deliverEmail (send_file_via_email ⟨[9], "f@x", "k@x", "convert"⟩ "document.bin")
        ∈ (handle_document ⟨true, some (some "p/q"), true, true, true, true⟩
            ⟨[9], "f@x", "k@x", "convert"⟩ 7 ⟨some "fid", none⟩).actions :=
  (default_display_name ⟨true, some (some "p/q"), true, true, true, true⟩
      ⟨[9], "f@x", "k@x", "convert"⟩ 7 ⟨some "fid", none⟩ "fid" "p/q"
      rfl (Or.inl rfl) rfl rfl rfl).1

end Send2Kindle
